import Mathlib

/-!
Shallow embedding of the glassflow/nats-jetstream-http-connector message
pipeline (cmd/nats-jetstream-http-connector/main.go and the unnamed
variant source file), together with theorems settling the frozen claims.

External effects (the HTTP endpoint, the JetStream broker, body reads,
context state) are modelled as explicit inputs: the endpoint is an oracle
mapping the attempt index to its outcome, publishes and acks are Booleans
saying whether the external call succeeded, and the observable actions of
the pipeline are collected as an event trace.
-/

namespace NatsConnector

/-- Mirrors the Config struct of main.go. `AckWait` is a Go time.Duration,
i.e. a count of nanoseconds. -/
structure Config where
  NatsServer : String
  Consumer : String
  AckWait : Int
  Topic : String
  HTTPEndpoint : String
  MaxRetries : Int
  ContentType : String
  ResponseTopic : String
  ErrorTopic : String
  SourceName : String
  Concurrent : Int
deriving DecidableEq, Repr

/-- Outcome of one `http.DefaultClient.Do` call inside the retry loop of
`HandleHTTPRequest`: either no response (a transport error, after which Go
leaves `resp` nil, or a nil response without error) or a response with a
status code. -/
inductive AttemptOutcome where
  | noResponse : AttemptOutcome
  | response (status : Int) : AttemptOutcome
deriving DecidableEq, Repr

/-- The success test of the retry loop: `resp.StatusCode >= 200 &&
resp.StatusCode < 300`. -/
def is2xxStatus (s : Int) : Bool := 200 ≤ s && s < 300

/-- Whether an attempt outcome passes the retry loop's success test. -/
def is2xx : AttemptOutcome → Bool
  | .noResponse => false
  | .response s => is2xxStatus s

/-- The value of the Go variable `resp` right after an attempt with the
given outcome: nil after a transport error, the response otherwise. -/
def respOf : AttemptOutcome → Option Int
  | .noResponse => none
  | .response s => some s

/-- How the `for attempt := 0; attempt <= MaxRetries` loop ended: an early
`return resp, nil` on a 2xx status, or fall-through with the final value
of `resp`. -/
inductive LoopExit where
  | earlySuccess (status : Int) : LoopExit
  | exhausted (lastResp : Option Int) : LoopExit
deriving DecidableEq, Repr

/-- The retry loop of `HandleHTTPRequest`, by remaining iteration count.
`fuel` is the number of iterations still allowed, `attempt` the current
attempt index, `lastResp` the current value of the Go variable `resp`
(overwritten by every `Do` call, nil after a transport error). Returns the
loop exit and the number of attempts made. -/
def retryLoop (oracle : Nat → AttemptOutcome) :
    Nat → Nat → Option Int → LoopExit × Nat
  | 0, _, lastResp => (.exhausted lastResp, 0)
  | fuel + 1, attempt, _ =>
    match oracle attempt with
    | .noResponse =>
      let r := retryLoop oracle fuel (attempt + 1) none
      (r.1, r.2 + 1)
    | .response s =>
      if is2xxStatus s then (.earlySuccess s, 1)
      else
        let r := retryLoop oracle fuel (attempt + 1) (some s)
        (r.1, r.2 + 1)

/-- Result of `HandleHTTPRequest`: the returned response's status, or one
of the two error returns (`final retry gave empty response`, resp.
`request returned failure: <status>`). -/
inductive HTTPResult where
  | success (status : Int) : HTTPResult
  | errNoResponse : HTTPResult
  | errFailureStatus (status : Int) : HTTPResult
deriving DecidableEq, Repr

/-- Embedding of `HandleHTTPRequest` (main.go lines 227-270). The loop
runs for attempts `0 .. MaxRetries` inclusive; afterwards, a nil `resp`
gives the no-response error, a status with `StatusCode < 200 ||
StatusCode > 300` gives the failure-status error, and anything else is
returned as a success. Also returns the number of attempts made. The
early return on an `http.NewRequestWithContext` error is not modelled:
its inputs (method, endpoint URL, payload) are the same on every
iteration, so it is a configuration-level failure preceding all attempts,
not a per-attempt outcome. -/
def HandleHTTPRequest (cfg : Config) (oracle : Nat → AttemptOutcome) :
    HTTPResult × Nat :=
  let r := retryLoop oracle (cfg.MaxRetries + 1).toNat 0 none
  match r.1 with
  | .earlySuccess s => (.success s, r.2)
  | .exhausted none => (.errNoResponse, r.2)
  | .exhausted (some s) =>
    if s < 200 || s > 300 then (.errFailureStatus s, r.2) else (.success s, r.2)

/-- The content of an error published by `errorHandler`: the textual
description of the failure that reached it (one of the error returns of
`HandleHTTPRequest`, a response-body read failure, or an ack failure). -/
inductive ErrMsg where
  | noResponse : ErrMsg
  | failureStatus (status : Int) : ErrMsg
  | bodyReadError : ErrMsg
  | ackError : ErrMsg
deriving DecidableEq, Repr

/-- Observable actions of the per-message pipeline `handleHTTPRequest` and
its helpers `responseHandler` / `errorHandler`: the log lines the claims
talk about, the two publish calls, and the `msg.Ack()` call. -/
inductive Event where
  | warnResponseTopicNotSet : Event
  | publishResponse (topic : String) (body : String) : Event
  | logResponsePublishFailed : Event
  | logResponseSent : Event
  | warnErrorTopicNotSet : Event
  | publishError (topic : String) (msg : ErrMsg) : Event
  | logErrorPublishFailed : Event
  | logErrorSent : Event
  | logCtxCanceledNoAck : Event
  | ack : Event
  | logDone : Event
deriving DecidableEq, Repr

/-- Whether an event is a publish to the error topic. -/
def isErrorPublish : Event → Bool
  | .publishError _ _ => true
  | _ => false

/-- Embedding of `errorHandler` (main.go lines 206-224). `publishOk` says
whether the broker accepted the publish call. -/
def errorHandler (cfg : Config) (publishOk : Bool) (msg : ErrMsg) :
    List Event :=
  if cfg.ErrorTopic.length = 0 then [.warnErrorTopicNotSet]
  else if publishOk then [.publishError cfg.ErrorTopic msg, .logErrorSent]
  else [.publishError cfg.ErrorTopic msg, .logErrorPublishFailed]

/-- Embedding of `responseHandler` (main.go lines 183-204): returns the
Boolean the function returns together with its trace. `publishOk` says
whether the broker accepted the publish call. -/
def responseHandler (cfg : Config) (publishOk : Bool) (body : String) :
    Bool × List Event :=
  if cfg.ResponseTopic.length = 0 then (false, [.warnResponseTopicNotSet])
  else if publishOk then
    (true, [.publishResponse cfg.ResponseTopic body, .logResponseSent])
  else
    (false, [.publishResponse cfg.ResponseTopic body, .logResponsePublishFailed])

/-- Embedding of the per-message pipeline `handleHTTPRequest` (main.go
lines 131-181), composed with `HandleHTTPRequest` for the delivery step.
`bodyReadOk` is whether `io.ReadAll(resp.Body)` succeeds and `respBody`
what it returns then; `ctxDone` is whether the per-message context is
already done at the `select` before the ack; `ackFails` is whether
`msg.Ack()` returns an error; `pubRespOk` / `pubErrOk` are the broker's
answers to the response-topic / error-topic publishes. Returns the event
trace of the run. -/
def handleHTTPRequest (cfg : Config) (oracle : Nat → AttemptOutcome)
    (bodyReadOk : Bool) (respBody : String)
    (ctxDone ackFails pubRespOk pubErrOk : Bool) : List Event :=
  match (HandleHTTPRequest cfg oracle).1 with
  | .errNoResponse => errorHandler cfg pubErrOk .noResponse
  | .errFailureStatus s => errorHandler cfg pubErrOk (.failureStatus s)
  | .success _ =>
    if bodyReadOk = false then errorHandler cfg pubErrOk .bodyReadError
    else
      let r := responseHandler cfg pubRespOk respBody
      if r.1 = false then r.2
      else if ctxDone then r.2 ++ [.logCtxCanceledNoAck]
      else
        r.2 ++ [.ack] ++
          (if ackFails then errorHandler cfg pubErrOk .ackError else []) ++
          [.logDone]

/-- The five connector-injected headers (main.go lines 135-141), as a
lookup map from key to value list. -/
def connectorHeaders (cfg : Config) : String → Option (List String) :=
  fun k =>
    if k = "Topic" then some [cfg.Topic]
    else if k = "RespTopic" then some [cfg.ResponseTopic]
    else if k = "ErrorTopic" then some [cfg.ErrorTopic]
    else if k = "Content-Type" then some [cfg.ContentType]
    else if k = "Source-Name" then some [cfg.SourceName]
    else none

/-- Semantics of Go's `maps.Copy(dst, src)` on the resulting map: every
key of `src` maps to its `src` value, other keys keep their `dst` value. -/
def mapsCopy (dst src : String → Option (List String)) :
    String → Option (List String) :=
  fun k =>
    match src k with
    | some v => some v
    | none => dst k

/-- The outbound header set of `handleHTTPRequest` (main.go line 143): the
connector-injected headers overlaid by the inbound message's headers. -/
def mergedHeaders (cfg : Config) (inbound : String → Option (List String)) :
    String → Option (List String) :=
  mapsCopy (connectorHeaders cfg) inbound

/-- The jetstream ack policies used by `ConsumerConfig`. -/
inductive AckPolicy where
  | ackExplicitPolicy : AckPolicy
  | ackAllPolicy : AckPolicy
  | ackNonePolicy : AckPolicy
deriving DecidableEq, Repr

/-- The fields of `jetstream.ConsumerConfig` set by `consumeMessage`.
`AckWait` is a Go time.Duration in nanoseconds. -/
structure ConsumerConfig where
  Durable : String
  AckPolicy : AckPolicy
  FilterSubject : String
  AckWait : Int
deriving DecidableEq, Repr

/-- The consumer handle `consumeMessage` ends up with: the attached
existing consumer, or one freshly created from a `ConsumerConfig`. -/
inductive ConsumerRef where
  | existing : ConsumerRef
  | created (jconf : ConsumerConfig) : ConsumerRef
deriving DecidableEq, Repr

/-- Log lines of the attach-or-create phase of `consumeMessage`. -/
inductive StartEvent where
  | logAttachError : StartEvent
  | logNewConsumer : StartEvent
  | logUseConsumer : StartEvent
deriving DecidableEq, Repr

/-- One second as a Go time.Duration (nanoseconds). -/
def nanosPerSecond : Int := 1000000000

/-- Embedding of the attach-or-create phase of `consumeMessage` (main.go
lines 81-102). `attachOk` is whether `jsContext.Consumer` succeeds,
`createOk` whether `jsContext.CreateConsumer` succeeds. The per-message
deadline `askWait` is `cfg.AckWait`. An `Except.error` is the startup
error returned to the caller, terminating the pipeline. -/
def consumeMessage (cfg : Config) (attachOk createOk : Bool) :
    Except Unit ConsumerRef × List StartEvent :=
  if attachOk then (Except.ok .existing, [.logUseConsumer])
  else
    let jconf : ConsumerConfig :=
      { Durable := cfg.Consumer
        AckPolicy := .ackExplicitPolicy
        FilterSubject := cfg.Topic ++ ".input"
        AckWait := cfg.AckWait + nanosPerSecond }
    if createOk then (Except.ok (.created jconf), [.logAttachError, .logNewConsumer])
    else (Except.error (), [.logAttachError])

/-- Embedding of Go's `strconv.Atoi`: an optional sign followed by at
least one decimal digit, fitting in a signed 64-bit integer; anything
else (empty string, stray characters, overflow) is an error. -/
def Atoi (s : String) : Option Int :=
  match s.data with
  | [] => none
  | c :: rest =>
    let neg : Bool := c = '-'
    let digits : List Char := if c = '-' || c = '+' then rest else c :: rest
    if digits.isEmpty then none
    else if digits.all Char.isDigit then
      let n : Nat := digits.foldl (fun acc d => acc * 10 + (d.toNat - 48)) 0
      let v : Int := if neg then -(n : Int) else (n : Int)
      if v < -(2 ^ 63) || v > 2 ^ 63 - 1 then none else some v
    else none

/-- Embedding of `initialiseConcurrency` from the unnamed source file
(lines 84-98): the capacity of the admission channel it creates. The
CONCURRENT environment variable is modelled as the string `os.Getenv`
returns, which is empty when the variable is absent. A parse error keeps
the default 1, and any value below 1 is clamped to 1. -/
def initialiseConcurrency (concurrent : String) : Nat :=
  let concurrency : Int :=
    if concurrent ≠ "" then
      match Atoi concurrent with
      | some n => n
      | none => 1
    else 1
  (if concurrency < 1 then 1 else concurrency).toNat

/-! ### Lemmas about the retry loop -/

/-- Unfolding the loop once when the attempt gets no response. -/
theorem retryLoop_succ_noResponse (oracle : Nat → AttemptOutcome)
    (fuel attempt : Nat) (lastResp : Option Int)
    (h : oracle attempt = .noResponse) :
    retryLoop oracle (fuel + 1) attempt lastResp =
      ((retryLoop oracle fuel (attempt + 1) none).1,
       (retryLoop oracle fuel (attempt + 1) none).2 + 1) := by
  simp only [retryLoop, h]

/-- Unfolding the loop once when the attempt gets a 2xx response. -/
theorem retryLoop_succ_success (oracle : Nat → AttemptOutcome)
    (fuel attempt : Nat) (lastResp : Option Int) (s : Int)
    (h : oracle attempt = .response s) (hs : is2xxStatus s = true) :
    retryLoop oracle (fuel + 1) attempt lastResp = (.earlySuccess s, 1) := by
  simp only [retryLoop, h, hs, if_true]

/-- Unfolding the loop once when the attempt gets a non-2xx response. -/
theorem retryLoop_succ_fail (oracle : Nat → AttemptOutcome)
    (fuel attempt : Nat) (lastResp : Option Int) (s : Int)
    (h : oracle attempt = .response s) (hs : is2xxStatus s = false) :
    retryLoop oracle (fuel + 1) attempt lastResp =
      ((retryLoop oracle fuel (attempt + 1) (some s)).1,
       (retryLoop oracle fuel (attempt + 1) (some s)).2 + 1) := by
  simp only [retryLoop, h, hs, if_false, Bool.false_eq_true]

/-- The retry loop makes at most `fuel` attempts. -/
theorem retryLoop_count_le (oracle : Nat → AttemptOutcome) :
    ∀ fuel attempt lastResp, (retryLoop oracle fuel attempt lastResp).2 ≤ fuel := by
  intro fuel
  induction fuel with
  | zero => intro a l; simp [retryLoop]
  | succ n ih =>
    intro a l
    simp only [retryLoop]
    cases hoa : oracle a with
    | noResponse =>
      simpa using Nat.succ_le_succ (ih (a + 1) none)
    | response s =>
      by_cases hs : is2xxStatus s = true
      · simp [hs]
      · simp only [hs, if_false, Bool.false_eq_true]
        simpa using Nat.succ_le_succ (ih (a + 1) (some s))

/-- If the first 2xx outcome is at relative attempt `k < fuel`, the loop
returns that status as an early success after exactly `k + 1` attempts. -/
theorem retryLoop_first_success (oracle : Nat → AttemptOutcome) :
    ∀ k fuel attempt lastResp s, k < fuel →
      (∀ j, j < k → is2xx (oracle (attempt + j)) = false) →
      oracle (attempt + k) = .response s → is2xxStatus s = true →
      retryLoop oracle fuel attempt lastResp = (.earlySuccess s, k + 1) := by
  intro k
  induction k with
  | zero =>
    intro fuel a l s hk _ ho hs
    match fuel, hk with
    | fuel + 1, _ =>
      rw [Nat.add_zero] at ho
      simp only [retryLoop, ho, hs, if_true]
  | succ k ih =>
    intro fuel a l s hk hj ho hs
    match fuel, hk with
    | fuel + 1, hk =>
      have hk' : k < fuel := Nat.lt_of_succ_lt_succ hk
      have h0 : is2xx (oracle a) = false := by simpa using hj 0 (Nat.succ_pos k)
      have hj' : ∀ j, j < k → is2xx (oracle (a + 1 + j)) = false := by
        intro j hjk
        have := hj (j + 1) (Nat.succ_lt_succ hjk)
        rwa [show a + (j + 1) = a + 1 + j by omega] at this
      have ho' : oracle (a + 1 + k) = .response s := by
        rwa [show a + 1 + k = a + (k + 1) by omega]
      simp only [retryLoop]
      cases hoa : oracle a with
      | noResponse =>
        rw [ih fuel (a + 1) none s hk' hj' ho' hs]
      | response t =>
        rw [hoa] at h0
        simp only [is2xx] at h0
        simp only [h0, if_false, Bool.false_eq_true]
        rw [ih fuel (a + 1) (some t) s hk' hj' ho' hs]

/-- If no attempt in the window passes the 2xx test, the loop exhausts all
its attempts and leaves `resp` at the final attempt's outcome. -/
theorem retryLoop_exhausted (oracle : Nat → AttemptOutcome) :
    ∀ fuel attempt lastResp,
      (∀ j, j ≤ fuel → is2xx (oracle (attempt + j)) = false) →
      retryLoop oracle (fuel + 1) attempt lastResp =
        (.exhausted (respOf (oracle (attempt + fuel))), fuel + 1) := by
  intro fuel
  induction fuel with
  | zero =>
    intro a l h
    have h0 : is2xx (oracle a) = false := by simpa using h 0 (Nat.le_refl 0)
    simp only [retryLoop, Nat.add_zero]
    cases hoa : oracle a with
    | noResponse => simp [retryLoop, respOf, hoa]
    | response s =>
      rw [hoa] at h0
      simp only [is2xx] at h0
      simp [retryLoop, h0, respOf, hoa]
  | succ n ih =>
    intro a l h
    have h0 : is2xx (oracle a) = false := by simpa using h 0 (Nat.zero_le _)
    have h' : ∀ j, j ≤ n → is2xx (oracle (a + 1 + j)) = false := by
      intro j hj
      have := h (j + 1) (Nat.succ_le_succ hj)
      rwa [show a + (j + 1) = a + 1 + j by omega] at this
    have harith : a + 1 + n = a + (n + 1) := by omega
    cases hoa : oracle a with
    | noResponse =>
      rw [retryLoop_succ_noResponse oracle (n + 1) a l hoa,
        ih (a + 1) none h', harith]
    | response s =>
      rw [hoa] at h0
      simp only [is2xx] at h0
      rw [retryLoop_succ_fail oracle (n + 1) a l s hoa h0,
        ih (a + 1) (some s) h', harith]

/-- With one unit of fuel the loop makes exactly one attempt. -/
theorem retryLoop_one_fuel (oracle : Nat → AttemptOutcome)
    (attempt : Nat) (lastResp : Option Int) :
    (retryLoop oracle 1 attempt lastResp).2 = 1 := by
  simp only [retryLoop]
  cases hoa : oracle attempt with
  | noResponse => simp [retryLoop]
  | response s =>
    by_cases hs : is2xxStatus s = true
    · simp [hs]
    · simp [hs, retryLoop]

/-- The attempt count returned by `HandleHTTPRequest` is the loop's count. -/
theorem HandleHTTPRequest_count (cfg : Config) (oracle : Nat → AttemptOutcome) :
    (HandleHTTPRequest cfg oracle).2 =
      (retryLoop oracle (cfg.MaxRetries + 1).toNat 0 none).2 := by
  simp only [HandleHTTPRequest]
  rcases h : retryLoop oracle (cfg.MaxRetries + 1).toNat 0 none with ⟨e, n⟩
  cases e with
  | earlySuccess s => rfl
  | exhausted lastResp =>
    cases lastResp with
    | none => rfl
    | some s =>
      by_cases hc : ((s < 200 || s > 300) = true)
      · simp [hc]
      · simp [hc]

/-- When the first 2xx outcome arrives at attempt `k ≤ MaxRetries`,
`HandleHTTPRequest` returns that status after exactly `k + 1` attempts. -/
theorem HandleHTTPRequest_first_success (cfg : Config)
    (oracle : Nat → AttemptOutcome) (k : Nat) (s : Int)
    (h0 : 0 ≤ cfg.MaxRetries) (hk : k ≤ cfg.MaxRetries.toNat)
    (hbefore : ∀ j, j < k → is2xx (oracle j) = false)
    (ho : oracle k = .response s) (hs : is2xxStatus s = true) :
    HandleHTTPRequest cfg oracle = (.success s, k + 1) := by
  have hlt : k < (cfg.MaxRetries + 1).toNat := by omega
  have hloop := retryLoop_first_success oracle k ((cfg.MaxRetries + 1).toNat)
    0 none s hlt (by intro j hj; simpa using hbefore j hj) (by simpa using ho) hs
  simp only [HandleHTTPRequest, hloop]

/-- When no attempt in `0 .. MaxRetries` passes the 2xx test, the result of
`HandleHTTPRequest` is decided by the final attempt's outcome via the
post-loop checks, after `MaxRetries + 1` attempts. -/
theorem HandleHTTPRequest_exhausted (cfg : Config)
    (oracle : Nat → AttemptOutcome) (h0 : 0 ≤ cfg.MaxRetries)
    (hno : ∀ k, k ≤ cfg.MaxRetries.toNat → is2xx (oracle k) = false) :
    HandleHTTPRequest cfg oracle =
      (match oracle cfg.MaxRetries.toNat with
       | .noResponse => .errNoResponse
       | .response s =>
         if s < 200 || s > 300 then .errFailureStatus s else .success s,
       cfg.MaxRetries.toNat + 1) := by
  have hfuel : (cfg.MaxRetries + 1).toNat = cfg.MaxRetries.toNat + 1 := by omega
  have hloop := retryLoop_exhausted oracle cfg.MaxRetries.toNat 0 none
    (by intro j hj; simpa using hno j hj)
  simp only [Nat.zero_add] at hloop
  rw [HandleHTTPRequest, hfuel, hloop]
  cases ho : oracle cfg.MaxRetries.toNat with
  | noResponse => simp [respOf]
  | response s =>
    by_cases hc : ((s < 200 || s > 300) = true)
    · simp [respOf, hc]
    · simp [respOf, hc]

/-! ### Sample inputs used to instantiate the theorems -/

/-- A sample configuration with both output topics set and one retry. -/
def sampleCfg : Config :=
  { NatsServer := "nats://localhost:4222"
    Consumer := "worker"
    AckWait := 60000000000
    Topic := "orders"
    HTTPEndpoint := "http://endpoint.example"
    MaxRetries := 1
    ContentType := "application/json"
    ResponseTopic := "orders.response"
    ErrorTopic := "orders.error"
    SourceName := "KEDAConnector"
    Concurrent := 1 }

/-- The sample configuration without a response topic. -/
def cfgNoRespTopic : Config := { sampleCfg with ResponseTopic := "" }

/-- An endpoint that always answers 200. -/
def ok200Oracle : Nat → AttemptOutcome := fun _ => .response 200

/-- An endpoint that always answers 300. -/
def status300Oracle : Nat → AttemptOutcome := fun _ => .response 300

/-- An endpoint that answers 500 on attempt 0 and then fails at transport
level on every later attempt. -/
def oracle500ThenDown : Nat → AttemptOutcome :=
  fun k => if k = 0 then .response 500 else .noResponse

/-- An endpoint that answers 500 on attempt 0 and 200 afterwards. -/
def oracle500Then200 : Nat → AttemptOutcome :=
  fun k => if k = 0 then .response 500 else .response 200

/-! ### Claims about the retry loop -/

/-- C2 (code bug, evaluation at the failing input): with `max_retries = 0`
and the single attempt answering status 300, the retry loop does not accept
300 as a success (`is2xxStatus 300 = false`), yet `HandleHTTPRequest`
returns the 300 response as a success instead of an error: the post-loop
check tests `StatusCode > 300` where the loop tests `StatusCode < 300`. -/
theorem claim_C2_code_bug_eval :
    is2xxStatus 300 = false ∧
    HandleHTTPRequest { sampleCfg with MaxRetries := 0 } status300Oracle
      = (.success 300, 1) := by
  decide

/-- C3 counterexample: with `max_retries = 1`, attempt 0 obtains a 500
response and attempt 1 fails at transport level. A response was obtained,
its status 500 lies outside [200,300), yet the result is the no-response
error rather than the failure-status error carrying 500: the post-loop
checks look only at the final attempt's `resp`, which the failing last
`Do` call overwrote with nil. -/
theorem claim_C3_counterexample :
    oracle500ThenDown 0 = .response 500 ∧
    is2xxStatus 500 = false ∧
    (HandleHTTPRequest { sampleCfg with MaxRetries := 1 } oracle500ThenDown).1
      = .errNoResponse ∧
    (HandleHTTPRequest { sampleCfg with MaxRetries := 1 } oracle500ThenDown).1
      ≠ .errFailureStatus 500 := by
  decide

/-- C3 (amended): when every attempt `0 .. max_retries` fails the 2xx test,
the outcome is decided by the final attempt alone: if the final attempt
yielded no response, the no-response error; if the final attempt's status is
below 200 or above 300, the failure-status error carrying that status;
otherwise (status exactly 300 included) the final response is returned as a
success. -/
theorem claim_C3_amended (cfg : Config) (oracle : Nat → AttemptOutcome)
    (h0 : 0 ≤ cfg.MaxRetries)
    (hno : ∀ k, k ≤ cfg.MaxRetries.toNat → is2xx (oracle k) = false) :
    (HandleHTTPRequest cfg oracle).1 =
      match oracle cfg.MaxRetries.toNat with
      | .noResponse => .errNoResponse
      | .response s =>
        if s < 200 || s > 300 then .errFailureStatus s else .success s := by
  rw [HandleHTTPRequest_exhausted cfg oracle h0 hno]

/-- Witness for the amended C3 at a concrete input: one attempt, status
500, gives the failure-status error carrying 500. -/
theorem claim_C3_amended_witness :
    (HandleHTTPRequest { sampleCfg with MaxRetries := 0 }
        (fun _ => AttemptOutcome.response 500)).1 = .errFailureStatus 500 := by
  rw [claim_C3_amended { sampleCfg with MaxRetries := 0 }
    (fun _ => AttemptOutcome.response 500) (by decide) (by intro k _; rfl)]
  decide

/-- C5: the retry loop makes at most `max_retries + 1` attempts; if the
endpoint first passes the 2xx test on attempt `k ≤ max_retries`, exactly
`k + 1` attempts are made and that response is returned immediately; and
with `max_retries = 0` exactly one attempt is made regardless of outcome. -/
theorem claim_C5 (cfg : Config) (oracle : Nat → AttemptOutcome)
    (h0 : 0 ≤ cfg.MaxRetries) :
    (HandleHTTPRequest cfg oracle).2 ≤ cfg.MaxRetries.toNat + 1 ∧
    (∀ k s, k ≤ cfg.MaxRetries.toNat →
      (∀ j, j < k → is2xx (oracle j) = false) →
      oracle k = .response s → is2xxStatus s = true →
      HandleHTTPRequest cfg oracle = (.success s, k + 1)) ∧
    (cfg.MaxRetries = 0 → (HandleHTTPRequest cfg oracle).2 = 1) := by
  refine ⟨?_, ?_, ?_⟩
  · rw [HandleHTTPRequest_count]
    have h := retryLoop_count_le oracle ((cfg.MaxRetries + 1).toNat) 0 none
    omega
  · intro k s hk hb ho hs
    exact HandleHTTPRequest_first_success cfg oracle k s h0 hk hb ho hs
  · intro hM
    rw [HandleHTTPRequest_count]
    have h1 : (cfg.MaxRetries + 1).toNat = 1 := by omega
    rw [h1]
    exact retryLoop_one_fuel oracle 0 none

/-- Witness for C5 at a concrete input: `max_retries = 1`, first attempt
500, second attempt 200, gives a success after exactly two attempts, within
the two-attempt bound. -/
theorem claim_C5_witness :
    (HandleHTTPRequest sampleCfg oracle500Then200).2 ≤
      sampleCfg.MaxRetries.toNat + 1 ∧
    HandleHTTPRequest sampleCfg oracle500Then200 = (.success 200, 2) := by
  have h := claim_C5 sampleCfg oracle500Then200 (by decide)
  refine ⟨h.1, ?_⟩
  exact h.2.1 1 200 (by decide)
    (by intro j hj; have hj0 : j = 0 := by omega
        subst hj0; decide)
    (by decide) (by decide)

/-! ### Claims about the per-message pipeline -/

/-- C1 counterexample: delivery succeeds (status 200, body read), no
response topic is configured, and the per-message context is live, yet the
trace holds the missing-response-topic warning and no ack: `responseHandler`
returns false for a missing topic and the pipeline returns before `Ack`. -/
theorem claim_C1_counterexample :
    Event.warnResponseTopicNotSet ∈
      handleHTTPRequest cfgNoRespTopic ok200Oracle true "resp" false false true true ∧
    Event.ack ∉
      handleHTTPRequest cfgNoRespTopic ok200Oracle true "resp" false false true true := by
  decide

/-- C1 (amended): when the HTTP delivery succeeds, the body is read, and no
response topic is configured, the pipeline logs the missing-response-topic
warning and returns without acknowledging the source message, whatever the
context or broker state. -/
theorem claim_C1_amended (cfg : Config) (oracle : Nat → AttemptOutcome)
    (respBody : String) (ctxDone ackFails pubRespOk pubErrOk : Bool) (s : Int)
    (hhttp : (HandleHTTPRequest cfg oracle).1 = .success s)
    (htopic : cfg.ResponseTopic = "") :
    handleHTTPRequest cfg oracle true respBody ctxDone ackFails pubRespOk pubErrOk
      = [.warnResponseTopicNotSet] ∧
    Event.ack ∉
      handleHTTPRequest cfg oracle true respBody ctxDone ackFails pubRespOk pubErrOk := by
  have htr : handleHTTPRequest cfg oracle true respBody ctxDone ackFails pubRespOk pubErrOk
      = [.warnResponseTopicNotSet] := by
    simp [handleHTTPRequest, hhttp, responseHandler, htopic]
  exact ⟨htr, by rw [htr]; decide⟩

/-- Witness for the amended C1 at a concrete input. -/
theorem claim_C1_amended_witness :
    handleHTTPRequest cfgNoRespTopic ok200Oracle true "out" false false true true
      = [.warnResponseTopicNotSet] := by
  exact (claim_C1_amended cfgNoRespTopic ok200Oracle "out" false false true true
    200 (by decide) (by decide)).1

/-- C4 counterexample: two identical successful deliveries, differing only
in whether the response-topic publish succeeded: the publish-succeeded run
acks, the publish-failed run does not, so the acknowledgement is not
unaffected by this specific publish failure. -/
theorem claim_C4_counterexample :
    Event.ack ∈
      handleHTTPRequest sampleCfg ok200Oracle true "resp" false false true true ∧
    Event.ack ∉
      handleHTTPRequest sampleCfg ok200Oracle true "resp" false false false true := by
  decide

/-- C4 (amended): when the response-topic publish fails, the failure is
logged, not retried, and not escalated to the error topic, and the pipeline
returns without acknowledging the message: the ack happens only when the
publish succeeded. -/
theorem claim_C4_amended (cfg : Config) (oracle : Nat → AttemptOutcome)
    (respBody : String) (ctxDone ackFails pubErrOk : Bool) (s : Int)
    (hhttp : (HandleHTTPRequest cfg oracle).1 = .success s)
    (htopic : cfg.ResponseTopic.length ≠ 0) :
    handleHTTPRequest cfg oracle true respBody ctxDone ackFails false pubErrOk
      = [.publishResponse cfg.ResponseTopic respBody, .logResponsePublishFailed] ∧
    Event.ack ∉
      handleHTTPRequest cfg oracle true respBody ctxDone ackFails false pubErrOk ∧
    ∀ e ∈ handleHTTPRequest cfg oracle true respBody ctxDone ackFails false pubErrOk,
      isErrorPublish e = false := by
  have htr : handleHTTPRequest cfg oracle true respBody ctxDone ackFails false pubErrOk
      = [.publishResponse cfg.ResponseTopic respBody, .logResponsePublishFailed] := by
    simp [handleHTTPRequest, hhttp, responseHandler, htopic]
  refine ⟨htr, by rw [htr]; simp, ?_⟩
  rw [htr]
  intro e he
  rcases List.mem_cons.mp he with h | h
  · rw [h]; rfl
  · rcases List.mem_cons.mp h with h2 | h2
    · rw [h2]; rfl
    · exact absurd h2 (List.not_mem_nil e)

/-- Witness for the amended C4 at a concrete input. -/
theorem claim_C4_amended_witness :
    handleHTTPRequest sampleCfg ok200Oracle true "resp" false false false true
      = [.publishResponse sampleCfg.ResponseTopic "resp", .logResponsePublishFailed] := by
  exact (claim_C4_amended sampleCfg ok200Oracle "resp" false false true 200
    (by decide) (by decide)).1

/-- C6 (code bug, evaluation at the failing input): every attempt (the
configuration has `max_retries = 1`) answers status 300, which fails the
loop's 2xx test, yet the run publishes nothing to the error topic and acks
the message: the post-loop `StatusCode > 300` check lets the final 300
response through as a success. -/
theorem claim_C6_code_bug_eval :
    is2xx (status300Oracle 0) = false ∧
    is2xx (status300Oracle 1) = false ∧
    Event.ack ∈
      handleHTTPRequest sampleCfg status300Oracle true "resp" false false true true ∧
    (handleHTTPRequest sampleCfg status300Oracle true "resp" false false true true).all
      (fun e => !(isErrorPublish e)) = true := by
  decide

/-- C7: when the HTTP delivery succeeds, the body is read, and the
response-topic publish succeeds, the message is acknowledged exactly when
the per-message context is not yet done at the pre-ack check; a cancelled
or expired context always skips the ack. -/
theorem claim_C7 (cfg : Config) (oracle : Nat → AttemptOutcome)
    (respBody : String) (ctxDone ackFails pubErrOk : Bool) (s : Int)
    (hhttp : (HandleHTTPRequest cfg oracle).1 = .success s)
    (htopic : cfg.ResponseTopic.length ≠ 0) :
    Event.ack ∈
        handleHTTPRequest cfg oracle true respBody ctxDone ackFails true pubErrOk
      ↔ ctxDone = false := by
  cases ctxDone with
  | true =>
    simp [handleHTTPRequest, hhttp, responseHandler, htopic]
  | false =>
    simp [handleHTTPRequest, hhttp, responseHandler, htopic]

/-- Witness for C7 at a concrete input: live context, successful routing,
ack present. -/
theorem claim_C7_witness :
    Event.ack ∈
        handleHTTPRequest sampleCfg ok200Oracle true "resp" false false true true
      ↔ false = false := by
  exact claim_C7 sampleCfg ok200Oracle "resp" false false true 200
    (by decide) (by decide)

/-! ### Claim about the outbound headers -/

/-- A sample inbound header map overriding the Topic key. -/
def sampleInbound : String → Option (List String) :=
  fun k => if k = "Topic" then some ["override"] else none

/-- C8: the outbound header set starts from the five connector-injected
headers and is overlaid by the inbound message's headers, inbound winning
on any key collision; the five connector keys are always present, each
carrying its single configuration value unless overridden. -/
theorem claim_C8 (cfg : Config) (inbound : String → Option (List String)) :
    (∀ k v, inbound k = some v → mergedHeaders cfg inbound k = some v) ∧
    (∀ k, inbound k = none →
      mergedHeaders cfg inbound k = connectorHeaders cfg k) ∧
    (∀ k, k ∈ ["Topic", "RespTopic", "ErrorTopic", "Content-Type", "Source-Name"] →
      (mergedHeaders cfg inbound k).isSome = true) ∧
    (inbound "Topic" = none →
      mergedHeaders cfg inbound "Topic" = some [cfg.Topic]) ∧
    (inbound "RespTopic" = none →
      mergedHeaders cfg inbound "RespTopic" = some [cfg.ResponseTopic]) ∧
    (inbound "ErrorTopic" = none →
      mergedHeaders cfg inbound "ErrorTopic" = some [cfg.ErrorTopic]) ∧
    (inbound "Content-Type" = none →
      mergedHeaders cfg inbound "Content-Type" = some [cfg.ContentType]) ∧
    (inbound "Source-Name" = none →
      mergedHeaders cfg inbound "Source-Name" = some [cfg.SourceName]) := by
  refine ⟨?_, ?_, ?_, ?_, ?_, ?_, ?_, ?_⟩
  · intro k v hk
    simp [mergedHeaders, mapsCopy, hk]
  · intro k hk
    simp [mergedHeaders, mapsCopy, hk]
  · have hgen : ∀ k, (connectorHeaders cfg k).isSome = true →
        (mergedHeaders cfg inbound k).isSome = true := by
      intro k hk
      simp only [mergedHeaders, mapsCopy]
      cases hik : inbound k with
      | some v => simp
      | none => simpa using hk
    intro k hk
    fin_cases hk <;> exact hgen _ (by simp [connectorHeaders])
  · intro h; simp [mergedHeaders, mapsCopy, connectorHeaders, h]
  · intro h; simp [mergedHeaders, mapsCopy, connectorHeaders, h]
  · intro h; simp [mergedHeaders, mapsCopy, connectorHeaders, h]
  · intro h; simp [mergedHeaders, mapsCopy, connectorHeaders, h]
  · intro h; simp [mergedHeaders, mapsCopy, connectorHeaders, h]

/-- Witness for C8 at a concrete input: the inbound override wins for
Topic, and the non-overridden Source-Name keeps its configuration value. -/
theorem claim_C8_witness :
    mergedHeaders sampleCfg sampleInbound "Topic" = some ["override"] ∧
    mergedHeaders sampleCfg sampleInbound "Source-Name"
      = some [sampleCfg.SourceName] := by
  exact ⟨(claim_C8 sampleCfg sampleInbound).1 "Topic" ["override"] (by decide),
    (claim_C8 sampleCfg sampleInbound).2.2.2.2.2.2.2 (by decide)⟩

/-! ### Claim about the consumer attach-or-create phase -/

/-- C9: when attaching to the existing durable consumer fails, the failure
is logged and a new durable consumer is created with explicit-ack policy,
filter subject `<topic>.input`, and ack-wait equal to the per-message
deadline plus one second; if that creation also fails, a startup error is
returned. -/
theorem claim_C9 (cfg : Config) (createOk : Bool) :
    StartEvent.logAttachError ∈ (consumeMessage cfg false createOk).2 ∧
    (createOk = true →
      consumeMessage cfg false createOk =
        (Except.ok (.created
          { Durable := cfg.Consumer
            AckPolicy := .ackExplicitPolicy
            FilterSubject := cfg.Topic ++ ".input"
            AckWait := cfg.AckWait + nanosPerSecond }),
         [.logAttachError, .logNewConsumer])) ∧
    (createOk = false →
      (consumeMessage cfg false createOk).1 = Except.error ()) := by
  cases createOk <;> simp [consumeMessage]

/-- Witness for C9 at a concrete input: attach and creation both fail, and
the startup error is returned. -/
theorem claim_C9_witness :
    (consumeMessage sampleCfg false false).1 = Except.error () := by
  exact (claim_C9 sampleCfg false).2.2 rfl

/-! ### Claim about the concurrency gate capacity -/

/-- The capacity computed by `initialiseConcurrency`, expressed through the
result of the `Atoi` parse. -/
theorem initialiseConcurrency_eq (s : String) :
    initialiseConcurrency s =
      match Atoi s with
      | some n => if n < 1 then 1 else n.toNat
      | none => 1 := by
  by_cases hs : s = ""
  · subst hs; rfl
  · have hs' : s ≠ "" := hs
    simp only [initialiseConcurrency, if_pos hs']
    cases hA : Atoi s with
    | none => simp
    | some n =>
      simp only []
      by_cases hn : n < 1
      · simp [hn]
      · simp [hn]

/-- C10: the admission channel created by `initialiseConcurrency` always
has capacity at least 1, and the capacity is exactly 1 whenever the
CONCURRENT environment variable is absent or empty (os.Getenv returns the
empty string in both cases), fails to parse as an integer, or parses to
zero or a negative value. -/
theorem claim_C10 (s : String) :
    1 ≤ initialiseConcurrency s ∧
    (s = "" → initialiseConcurrency s = 1) ∧
    (Atoi s = none → initialiseConcurrency s = 1) ∧
    (∀ n : Int, Atoi s = some n → n ≤ 0 → initialiseConcurrency s = 1) := by
  refine ⟨?_, ?_, ?_, ?_⟩
  · rw [initialiseConcurrency_eq]
    cases hA : Atoi s with
    | none => simp
    | some n =>
      by_cases hn : n < 1
      · simp [hn]
      · simp only [if_neg hn]
        show 1 ≤ n.toNat
        omega
  · intro hs; subst hs; rfl
  · intro hA; rw [initialiseConcurrency_eq, hA]
  · intro n hA hn
    rw [initialiseConcurrency_eq, hA]
    have h1 : n < 1 := by omega
    simp [h1]

/-- Witness for C10 at concrete inputs: empty, negative, unparsable, and a
positive value. -/
theorem claim_C10_witness :
    initialiseConcurrency "" = 1 ∧
    initialiseConcurrency "-3" = 1 ∧
    initialiseConcurrency "abc" = 1 ∧
    1 ≤ initialiseConcurrency "5" := by
  exact ⟨(claim_C10 "").2.1 rfl,
    (claim_C10 "-3").2.2.2 (-3) (by decide) (by decide),
    (claim_C10 "abc").2.2.1 (by decide),
    (claim_C10 "5").1⟩

end NatsConnector
